import Mathlib

/-! Verification of the yt_grabber download orchestrator against its
natural-language specification.

The Python sources are shallowly embedded as Lean definitions:

* `src/utils/url_validator.py`  → `extract_video_id`, `is_valid_youtube_url`,
  `normalize_url`.  Python `re.search` over the five fixed URL patterns is
  embedded as a left-to-right scan for the mandatory literal core of each
  pattern followed by exactly eleven identifier characters; the optional
  `(?:https?://)?(?:www\.)?` prefixes of the patterns never change whether a
  match exists nor the captured group, so they need no separate model.
* `src/utils/file_helper.py`    → `sanitize_filename`.
* `src/models/video_info.py`    → `VideoInfo`, `to_dict`, `from_dict`.
* `src/services/metadata_handler.py` → `load_library`, `save_metadata`,
  `get_all_videos`, `search_videos`.  File-system outcomes (missing file,
  corrupt JSON, failing write) are explicit inputs.
* `src/services/download_manager.py` → `extract_info`, `download_worker`,
  `progress_hook`, `add_download`, `cancel_download`, and a small transition
  system `dmStep` for the thread registry `active_downloads` (one worker per
  fresh uuid task id; the worker pops its registry entry in its `finally`
  block exactly when it reaches a terminal state).
* `src/viewmodels/main_viewmodel.py` → `vm_add_download`, the `_on_*` event
  handlers, and the fold `vmRun` over viewmodel events.

External collaborators (yt-dlp, the file system, the clock) appear as
explicit outcome parameters; machine-level floats of the Python code are
modelled as `Rat`, Python `int` as `Int`.
-/

/-! ## URL validator (`src/utils/url_validator.py`) -/

/-- Python character class `[a-zA-Z0-9_-]` from `UrlValidator.URL_PATTERNS`. -/
def isIdChar (c : Char) : Bool :=
  ('a' ≤ c && c ≤ 'z') || ('A' ≤ c && c ≤ 'Z') || ('0' ≤ c && c ≤ '9') || c = '_' || c = '-'

/-- The capture group `([a-zA-Z0-9_-]{11})`: succeeds when at least eleven
identifier characters follow, capturing exactly the first eleven. -/
def takeId (s : List Char) : Option (List Char) :=
  if (s.take 11).length = 11 && (s.take 11).all isIdChar then some (s.take 11) else none

/-- Embedding of `re.search` for patterns 1-4 of `URL_PATTERNS`: scan left to right for the
mandatory literal `core` of the pattern and capture the eleven identifier
characters that follow; on a failed capture the engine moves to the next
starting position. -/
def searchPat (core : List Char) : List Char → Option (List Char)
  | [] => none
  | c :: rest =>
    if core.isPrefixOf (c :: rest) then
      match takeId ((c :: rest).drop core.length) with
      | some vid => some vid
      | none => searchPat core rest
    else searchPat core rest

/-- The `.*v=([a-zA-Z0-9_-]{11})` tail of pattern 5: the greedy `.*` (which
cannot cross a newline) makes the engine capture at the last viable `v=`
occurrence. -/
def lastVEq : List Char → Option (List Char)
  | [] => none
  | c :: rest =>
    if c = '\n' then none
    else
      match lastVEq rest with
      | some vid => some vid
      | none =>
        if ['v', '='].isPrefixOf (c :: rest) then takeId ((c :: rest).drop 2)
        else none

/-- Embedding of `re.search` for pattern 5, `youtube\.com/watch\?.*v=([a-zA-Z0-9_-]{11})`:
find the literal core, then resolve the greedy `.*`. -/
def searchCore5 (core : List Char) : List Char → Option (List Char)
  | [] => none
  | c :: rest =>
    if core.isPrefixOf (c :: rest) then
      match lastVEq ((c :: rest).drop core.length) with
      | some vid => some vid
      | none => searchCore5 core rest
    else searchCore5 core rest

/-- Mandatory core of pattern 1, `youtube\.com/watch\?v=`. -/
def core1 : List Char := "youtube.com/watch?v=".data

/-- Mandatory core of pattern 2, `youtu\.be/`. -/
def core2 : List Char := "youtu.be/".data

/-- Mandatory core of pattern 3, `youtube\.com/embed/`. -/
def core3 : List Char := "youtube.com/embed/".data

/-- Mandatory core of pattern 4, `youtube\.com/shorts/`. -/
def core4 : List Char := "youtube.com/shorts/".data

/-- Mandatory core of pattern 5, `youtube\.com/watch\?`. -/
def core5 : List Char := "youtube.com/watch?".data

/-- Embeds `UrlValidator.extract_video_id`: try the five patterns in order. -/
def extract_video_id (url : List Char) : Option (List Char) :=
  match searchPat core1 url with
  | some vid => some vid
  | none =>
    match searchPat core2 url with
    | some vid => some vid
    | none =>
      match searchPat core3 url with
      | some vid => some vid
      | none =>
        match searchPat core4 url with
        | some vid => some vid
        | none => searchCore5 core5 url

/-- Embeds `UrlValidator.is_valid_youtube_url`. -/
def is_valid_youtube_url (url : List Char) : Bool :=
  (extract_video_id url).isSome

/-- The constant part of the canonical URL built by `normalize_url`. -/
def canonHead : List Char := "https://www.youtube.com/watch?v=".data

/-- Embeds `UrlValidator.normalize_url`: rebuilds
`https://www.youtube.com/watch?v=VIDEO_ID` from the extracted id. -/
def normalize_url (url : List Char) : Option (List Char) :=
  match extract_video_id url with
  | some vid => some (canonHead ++ vid)
  | none => none

/-! ## Filename sanitization (`src/utils/file_helper.py`) -/

/-- Membership in `FileHelper.INVALID_CHARS`, the class of filesystem-illegal
characters replaced by underscores. -/
def isInvalidFileChar (c : Char) : Bool :=
  c = '<' || c = '>' || c = ':' || c = '"' || c = '/' || c = '\\' || c = '|' || c = '?' || c = '*'

/-- Python `str.strip(chars)`: remove the given characters from both ends. -/
def stripChars (cs : List Char) (s : List Char) : List Char :=
  ((s.dropWhile (fun c => cs.contains c)).reverse.dropWhile (fun c => cs.contains c)).reverse

/-- Embedding of `re.sub(r"_+", "_", s)`: collapse every run of consecutive
underscores to a single underscore. -/
def collapseUnderscores : List Char → List Char
  | [] => []
  | [c] => [c]
  | c :: c2 :: rest =>
    if c = '_' && c2 = '_' then collapseUnderscores (c2 :: rest)
    else c :: collapseUnderscores (c2 :: rest)

/-- Position of the last dot in a single path component, as in
`pathlib.PurePath`: the extension starts at the last `.` provided it is
neither the first nor the last character. -/
def lastDotIdx (name : List Char) : Option Nat :=
  match name.reverse.findIdx? (fun c => c = '.') with
  | some j => some (name.length - 1 - j)
  | none => none

/-- `pathlib` stem/suffix split of a single path component (the sanitized
name contains no separators, every `/` and `\\` having been replaced). -/
def pathSplitExt (name : List Char) : List Char × List Char :=
  match lastDotIdx name with
  | some i => if 0 < i ∧ i < name.length - 1 then (name.take i, name.drop i) else (name, [])
  | none => (name, [])

/-- Python slice `s[:k]` for a possibly negative bound `k`. -/
def pySliceTo (s : List Char) (k : Int) : List Char :=
  if 0 ≤ k then s.take k.toNat else s.take (s.length - (-k).toNat)

/-- Embeds `FileHelper.sanitize_filename`. -/
def sanitize_filename (filename : List Char) (max_length : Nat) : List Char :=
  let s1 := filename.map (fun c => if isInvalidFileChar c then '_' else c)
  let s2 := stripChars [' ', '.'] s1
  let s3 := collapseUnderscores s2
  let s4 :=
    if max_length < s3.length then
      let stemExt := pathSplitExt s3
      pySliceTo stemExt.1 ((max_length : Int) - (stemExt.2.length : Int)) ++ stemExt.2
    else s3
  if s4 = [] then "video".data else s4

/-! ## Item record (`src/models/video_info.py`) -/

/-- Embeds the `VideoInfo` dataclass.  `downloaded_at` is the ISO rendering of
the `datetime` (Python stores a `datetime`, serialized with `isoformat`,
which never yields the empty string); `progress` and `speed` are Python
floats, modelled as rationals. -/
structure VideoInfo where
  video_id : String
  title : String
  uploader : String
  upload_date : Option String := none
  duration : Int := 0
  filename : String := ""
  filepath : String := ""
  file_size : Int := 0
  quality : String := "best"
  thumbnail_url : String := ""
  downloaded_at : Option String := none
  url : String := ""
  status : String := "pending"
  progress : Rat := 0
  speed : Rat := 0
  error_message : String := ""
deriving DecidableEq

/-- JSON object produced by `VideoInfo.to_dict` and consumed by
`VideoInfo.from_dict`.  Keys read back with `data.get(...)` defaults are
optional; `video_id` and `title` are read with mandatory indexing. -/
structure VideoDict where
  video_id : String
  title : String
  uploader : Option String := none
  upload_date : Option String := none
  duration : Option Int := none
  filename : Option String := none
  filepath : Option String := none
  file_size : Option Int := none
  quality : Option String := none
  thumbnail_url : Option String := none
  downloaded_at : Option String := none
  url : Option String := none
deriving DecidableEq

/-- Embeds `VideoInfo.to_dict`. -/
def to_dict (v : VideoInfo) : VideoDict :=
  { video_id := v.video_id
    title := v.title
    uploader := some v.uploader
    upload_date := v.upload_date
    duration := some v.duration
    filename := some v.filename
    filepath := some v.filepath
    file_size := some v.file_size
    quality := some v.quality
    thumbnail_url := some v.thumbnail_url
    downloaded_at := v.downloaded_at
    url := some v.url }

/-- Embeds `VideoInfo.from_dict`.  The guard `if data.get("downloaded_at"):`
is Python truthiness, so an empty string also maps to `None`. -/
def from_dict (data : VideoDict) : VideoInfo :=
  { video_id := data.video_id
    title := data.title
    uploader := data.uploader.getD ""
    upload_date := data.upload_date
    duration := data.duration.getD 0
    filename := data.filename.getD ""
    filepath := data.filepath.getD ""
    file_size := data.file_size.getD 0
    quality := data.quality.getD "best"
    thumbnail_url := data.thumbnail_url.getD ""
    downloaded_at :=
      match data.downloaded_at with
      | some s => if s = "" then none else some s
      | none => none
    url := data.url.getD "" }

/-- Equality on the twelve durable fields persisted by the Metadata Store
(identifier, title, uploader, upload date, duration, filename, filepath,
file size, quality, thumbnail, origin URL, completion timestamp). -/
def durableEq (a b : VideoInfo) : Prop :=
  a.video_id = b.video_id ∧ a.title = b.title ∧ a.uploader = b.uploader ∧
  a.upload_date = b.upload_date ∧ a.duration = b.duration ∧ a.filename = b.filename ∧
  a.filepath = b.filepath ∧ a.file_size = b.file_size ∧ a.quality = b.quality ∧
  a.thumbnail_url = b.thumbnail_url ∧ a.url = b.url ∧ a.downloaded_at = b.downloaded_at

instance (a b : VideoInfo) : Decidable (durableEq a b) := by
  unfold durableEq
  exact inferInstance

/-! ## Metadata Store (`src/services/metadata_handler.py`) -/

/-- The persisted library: a JSON object mapping video id to record dict,
in insertion order. -/
abbrev Library := List (String × VideoDict)

/-- Python dict assignment `library[video_id] = ...`: overwrite in place,
append when the key is new. -/
def libInsert (k : String) (d : VideoDict) : Library → Library
  | [] => [(k, d)]
  | (k2, d2) :: rest => if k2 = k then (k, d) :: rest else (k2, d2) :: libInsert k d rest

/-- Python dict lookup on the library. -/
def libLookup (k : String) : Library → Option VideoDict
  | [] => none
  | (k2, d) :: rest => if k2 = k then some d else libLookup k rest

/-- Observable state of the backing `library.json` file: absent, unparseable,
or holding a parsed library.  I/O outcomes are inputs of the embedding. -/
inductive FileState where
  | missing
  | corrupt
  | ok (lib : Library)
deriving DecidableEq

/-- Embeds `MetadataHandler.load_library`: a missing file and a file whose
parse raises both yield the empty dict. -/
def load_library : FileState → Library
  | .missing => []
  | .corrupt => []
  | .ok lib => lib

/-- Embeds `MetadataHandler.save_metadata`.  `writeOk` is the outcome of the
`open`/`json.dump` step; when it fails the exception is caught and `False`
is returned (the prior file state is kept as the observable store). -/
def save_metadata (v : VideoInfo) (fs : FileState) (writeOk : Bool) : Bool × FileState :=
  let lib := load_library fs
  let lib2 := libInsert v.video_id (to_dict v) lib
  if writeOk then (true, .ok lib2) else (false, fs)

/-- Embeds `MetadataHandler.get_video_metadata`. -/
def get_video_metadata (video_id : String) (fs : FileState) : Option VideoInfo :=
  (libLookup video_id (load_library fs)).map from_dict

/-- Embeds `MetadataHandler.get_all_videos`. -/
def get_all_videos (fs : FileState) : List VideoInfo :=
  (load_library fs).map (fun p => from_dict p.2)

/-- Python `str.lower` (ASCII case folding on the characters involved). -/
def lowerChars (s : String) : List Char :=
  s.data.map Char.toLower

/-- Case-insensitive substring test `q.lower() in s.lower()`. -/
def containsCI (q s : String) : Bool :=
  decide (List.IsInfix (lowerChars q) (lowerChars s))

/-- Search predicate of `MetadataHandler.search_videos` on one stored dict:
`query_lower in title or query_lower in uploader`. -/
def dictMatches (q : String) (d : VideoDict) : Bool :=
  containsCI q d.title || containsCI q (d.uploader.getD "")

/-- Embeds `MetadataHandler.search_videos`. -/
def search_videos (q : String) (fs : FileState) : List VideoInfo :=
  (((load_library fs).map Prod.snd).filter (dictMatches q)).map from_dict

/-! ## Download manager (`src/services/download_manager.py`) -/

/-- Python `x or default` on an optional string field: `None` and the empty
string are falsy. -/
def pyOrStr (o : Option String) (d : String) : String :=
  match o with
  | some s => if s = "" then d else s
  | none => d

/-- Python `x or default` on an optional integer field: `None` and `0` are
falsy. -/
def pyOrInt (o : Option Int) (d : Int) : Int :=
  match o with
  | some n => if n = 0 then d else n
  | none => d

/-- Python `x or default` on an optional float field, over rationals. -/
def pyOrRat (o : Option Rat) (d : Rat) : Rat :=
  match o with
  | some x => if x = 0 then d else x
  | none => d

/-- Embeds `DownloadManager._get_format_selector`: the fixed quality table
with fallback `best` for unrecognized values. -/
def get_format_selector (quality : String) : String :=
  if quality = "best" then "best"
  else if quality = "1080p" then "best[height<=1080]"
  else if quality = "720p" then "best[height<=720]"
  else if quality = "480p" then "best[height<=480]"
  else if quality = "360p" then "best[height<=360]"
  else if quality = "audio" then "bestaudio/best"
  else "best"

/-- Fields the worker reads from the yt-dlp metadata dict in
`DownloadManager._extract_info`; `none` models an absent or `None` value. -/
structure ExtractedMeta where
  id : Option String := none
  title : Option String := none
  uploader : Option String := none
  upload_date : Option String := none
  duration : Option Int := none
  thumbnail : Option String := none
deriving DecidableEq

/-- Outcome of the metadata-only `ydl.extract_info(url, download=False)`
call: an exception, a falsy result, or a metadata dict. -/
inductive ExtractOutcome where
  | raised (msg : String)
  | noInfo
  | ok (meta : ExtractedMeta)
deriving DecidableEq

/-- Embeds `DownloadManager._extract_info`: either the yt-dlp exception
propagates (`Except.error`), or `None` is returned for a falsy info dict,
or a fresh `VideoInfo` with status `pending` is built.  The quality field is
the hardcoded literal `"best"` from line 169 of the source. -/
def extract_info (url : String) : ExtractOutcome → Except String (Option VideoInfo)
  | .raised msg => .error msg
  | .noInfo => .ok none
  | .ok meta =>
    let title := pyOrStr meta.title "Unbekannt"
    .ok (some
      { video_id := pyOrStr meta.id ""
        title := title
        uploader := pyOrStr meta.uploader "Unbekannt"
        upload_date := meta.upload_date
        duration := pyOrInt meta.duration 0
        thumbnail_url := pyOrStr meta.thumbnail ""
        filename := String.mk (sanitize_filename title.data 200) ++ ".mp4"
        quality := "best"
        url := url
        status := "pending" })

/-- Fields the worker reads from the result of the download-mode
`ydl.extract_info(url, download=True)` call. -/
structure TransferInfo where
  preparedFilename : String
  filesize : Option Int := none
  filesize_approx : Option Int := none
deriving DecidableEq

/-- Outcome of the download-mode call: a truthy info dict, a falsy result, a
`DownloadCancelled`, a `DownloadError`, or any other exception. -/
inductive TransferOutcome where
  | ok (info : TransferInfo)
  | noInfo
  | cancelledSignal
  | dlError (msg : String)
  | raised (msg : String)
deriving DecidableEq

/-- Path join `str(self.output_dir / name)` for the worker's output
directory (a `pathlib` join with an absolute right operand discards the
left one). -/
def pathJoin (dir : String) (name : String) : String :=
  if name = "" then dir
  else if name.data.head? = some '/' then name
  else dir ++ "/" ++ name

/-- Qt signals emitted by the `DownloadManager` to its subscriber. -/
inductive WEvent where
  | info_extracted (task_id : String) (v : VideoInfo)
  | status_changed (task_id : String) (status : String)
  | progress_updated (task_id : String) (progress : Rat) (speed : Rat)
  | download_finished (task_id : String) (metadata : VideoDict)
  | download_error (task_id : String) (msg : String)
deriving DecidableEq

/-- Final record assembled on transfer success (lines 108-112 of the
source): filename and path come from `ydl.prepare_filename`, size from
`filesize or filesize_approx`, status becomes `completed`, progress 100. -/
def finalVideoInfo (vi : VideoInfo) (outDir : String) (info : TransferInfo) : VideoInfo :=
  { vi with
    filename := info.preparedFilename
    filepath := pathJoin outDir info.preparedFilename
    file_size := pyOrInt (some (info.filesize.getD 0)) (info.filesize_approx.getD 0)
    status := "completed"
    progress := 100 }

/-- Embeds `DownloadManager._download_worker` as a function from the two
external-call outcomes to the emitted signal trace; the boolean records
whether the download-mode call was invoked at all. -/
def download_worker (task_id url quality outDir : String)
    (ext : ExtractOutcome) (tr : TransferOutcome) : List WEvent × Bool :=
  let _fmt := get_format_selector quality
  match extract_info url ext with
  | .error e => ([.download_error task_id ("Fehler beim Laden der Metadaten: " ++ e)], false)
  | .ok viOpt =>
    let evs1 :=
      match viOpt with
      | some vi => [WEvent.info_extracted task_id vi]
      | none => []
    let evs2 := evs1 ++ [WEvent.status_changed task_id "downloading"]
    match tr, viOpt with
    | .ok info, some vi =>
      let vi2 := finalVideoInfo vi outDir info
      (evs2 ++ [WEvent.download_finished task_id (to_dict vi2),
                WEvent.status_changed task_id "completed"], true)
    | .ok _, none => (evs2 ++ [WEvent.download_error task_id "Download fehlgeschlagen"], true)
    | .noInfo, _ => (evs2 ++ [WEvent.download_error task_id "Download fehlgeschlagen"], true)
    | .cancelledSignal, _ => (evs2 ++ [WEvent.status_changed task_id "cancelled"], true)
    | .dlError msg, _ => (evs2 ++ [WEvent.download_error task_id msg], true)
    | .raised msg, _ =>
      (evs2 ++ [WEvent.download_error task_id ("Unerwarteter Fehler: " ++ msg)], true)

/-- The successive states of the worker-owned `VideoInfo` record along one
run of `_download_worker`: the record built by extraction, then (on
transfer success only) the finalized record. -/
def workerRecords (_task_id url quality outDir : String)
    (ext : ExtractOutcome) (tr : TransferOutcome) : List VideoInfo :=
  let _fmt := get_format_selector quality
  match extract_info url ext with
  | .error _ => []
  | .ok none => []
  | .ok (some vi) =>
    match tr with
    | .ok info => [vi, finalVideoInfo vi outDir info]
    | _ => [vi]

/-- Fields the progress hook reads from a yt-dlp progress dict. -/
structure HookData where
  status : String
  total_bytes : Option Int := none
  total_bytes_estimate : Option Int := none
  downloaded_bytes : Option Int := none
  speed : Option Rat := none
deriving DecidableEq

/-- The total used by the hook:
`d.get("total_bytes") or d.get("total_bytes_estimate", 0)`. -/
def effectiveTotal (d : HookData) : Int :=
  pyOrInt d.total_bytes (d.total_bytes_estimate.getD 0)

/-- Embeds the hook built by `DownloadManager._make_progress_hook`: the
signal payload it emits for one callback invocation, or `none` when the
invocation is suppressed. -/
def progress_hook (d : HookData) : Option (Rat × Rat) :=
  if d.status = "downloading" then
    let total := effectiveTotal d
    let downloaded := d.downloaded_bytes.getD 0
    if 0 < total then
      some (((downloaded : Rat) / (total : Rat)) * 100, pyOrRat d.speed 0)
    else none
  else if d.status = "finished" then
    some (100, 0)
  else none

/-- Embeds the validation part of `DownloadManager.add_download`: an invalid
URL yields `None` before any thread is created; a valid one yields the
fresh uuid task id under which the worker thread is registered and
started. -/
def add_download (freshId url quality : String) : Option String :=
  let _fmt := get_format_selector quality
  if is_valid_youtube_url url.data then some freshId else none

/-! ### Registry transition system for cancellation

`active_downloads` maps task id to worker thread.  `add_download` inserts
under a fresh uuid; each worker removes its own entry in its `finally`
block exactly when its task reaches a terminal state (completed, error or
cancelled), so terminal and unknown tasks are the ones absent from the
registry.  The `tasks` component tracks each task's conceptual lifecycle
status so the claim about terminal tasks can be stated. -/

/-- Terminal lifecycle statuses of a task. -/
def isTerminalStatus (s : String) : Bool :=
  s = "completed" || s = "error" || s = "cancelled"

/-- Manager state: conceptual task statuses, the `active_downloads` registry
keys, and the persisted library. -/
structure DMState where
  tasks : List (String × String)
  active : List String
  store : Library
deriving DecidableEq

/-- Initial manager state. -/
def initDM : DMState := { tasks := [], active := [], store := [] }

/-- Update the status recorded for a task id. -/
def setTask (k : String) (s : String) : List (String × String) → List (String × String)
  | [] => []
  | (k2, s2) :: rest => if k2 = k then (k, s) :: rest else (k2, s2) :: setTask k s rest

/-- Status recorded for a task id. -/
def taskLookup (k : String) : List (String × String) → Option String
  | [] => none
  | (k2, s) :: rest => if k2 = k then some s else taskLookup k rest

/-- Transitions of the manager: a submission under a fresh uuid, the
transition to downloading after extraction, and the three terminal worker
outcomes (each of which runs the worker's `finally` cleanup that pops the
registry entry; completion also writes the record through to the store). -/
inductive DMTrans where
  | add (tid : String)
  | start_transfer (tid : String)
  | finish_completed (tid : String) (rec : VideoDict)
  | finish_error (tid : String)
  | finish_cancelled (tid : String)
deriving DecidableEq

/-- One manager transition.  The guards encode the execution model: uuids
are fresh, and only the single live worker of a registered task fires its
transitions. -/
def dmStep (s : DMState) : DMTrans → DMState
  | .add tid =>
    if (taskLookup tid s.tasks).isSome then s
    else { tasks := (tid, "pending") :: s.tasks, active := tid :: s.active, store := s.store }
  | .start_transfer tid =>
    if tid ∈ s.active then { s with tasks := setTask tid "downloading" s.tasks } else s
  | .finish_completed tid rec =>
    if tid ∈ s.active then
      { tasks := setTask tid "completed" s.tasks
        active := s.active.erase tid
        store := libInsert rec.video_id rec s.store }
    else s
  | .finish_error tid =>
    if tid ∈ s.active then
      { s with tasks := setTask tid "error" s.tasks, active := s.active.erase tid }
    else s
  | .finish_cancelled tid =>
    if tid ∈ s.active then
      { s with tasks := setTask tid "cancelled" s.tasks, active := s.active.erase tid }
    else s

/-- Run the manager from its initial state. -/
def dmRun (evs : List DMTrans) : DMState := evs.foldl dmStep initDM

/-- Embeds `DownloadManager.cancel_download`: return whether the task id is
registered in `active_downloads`; the call only signals the transfer (via
`ydl.cancel()`) and never touches the manager state or the store. -/
def cancel_download (task_id : String) (s : DMState) : Bool × DMState :=
  if task_id ∈ s.active then (true, s) else (false, s)

/-! ## Session state model (`src/viewmodels/main_viewmodel.py`) -/

/-- Viewmodel state: the `self.downloads` task map (insertion ordered, as a
Python dict) and the observable contents of the Metadata Store it writes
through to. -/
structure VMState where
  downloads : List (String × VideoInfo)
  store : Library
deriving DecidableEq

/-- Initial viewmodel state. -/
def initVM : VMState := { downloads := [], store := [] }

/-- Python dict lookup on the task map. -/
def dlLookup (k : String) : List (String × VideoInfo) → Option VideoInfo
  | [] => none
  | (k2, v) :: rest => if k2 = k then some v else dlLookup k rest

/-- In-place update of the record stored under a task id (a no-op when the
id is untracked, matching the `if task_id in self.downloads` guards). -/
def dlUpdate (k : String) (f : VideoInfo → VideoInfo) :
    List (String × VideoInfo) → List (String × VideoInfo)
  | [] => []
  | (k2, v) :: rest => if k2 = k then (k2, f v) :: rest else (k2, v) :: dlUpdate k f rest

/-- Python `del self.downloads[task_id]`. -/
def dlErase (k : String) : List (String × VideoInfo) → List (String × VideoInfo)
  | [] => []
  | (k2, v) :: rest => if k2 = k then rest else (k2, v) :: dlErase k rest

/-- Qt signals re-emitted by the viewmodel towards the presentation layer. -/
inductive OutEvent where
  | download_added (task_id : String) (v : VideoInfo)
  | metadata_updated (task_id : String) (v : VideoInfo)
  | progress_updated (task_id : String) (progress : Rat) (speed : Rat)
  | status_changed (task_id : String) (status : String)
  | download_completed (task_id : String) (metadata : VideoDict)
  | download_error (task_id : String) (msg : String)
  | queue_updated
deriving DecidableEq

/-- Embeds `MainViewModel.add_download`: an invalid URL is rejected with an
explicit `download_error` signal (empty task id) and no state change;
otherwise a placeholder record is created under the fresh task id returned
by the manager, preserving the requested quality. -/
def vm_add_download (freshId url quality : String) (m : VMState) :
    Option String × VMState × List OutEvent :=
  if is_valid_youtube_url url.data then
    let video_id := pyOrStr ((extract_video_id url.data).map String.mk) ""
    let temp : VideoInfo :=
      { video_id := video_id
        title := "Wird geladen..."
        uploader := ""
        url := url
        quality := quality
        status := "pending" }
    (some freshId,
     { m with downloads := m.downloads ++ [(freshId, temp)] },
     [OutEvent.download_added freshId temp, OutEvent.queue_updated])
  else
    (none, m, [OutEvent.download_error "" "Ungültige YouTube-URL"])

/-- Embeds `MainViewModel._on_info_extracted`: overwrite the placeholder's
display fields in place (id, title, uploader, duration, thumbnail). -/
def vm_on_info_extracted (task_id : String) (vi : VideoInfo) (m : VMState) : VMState :=
  { m with
    downloads := dlUpdate task_id (fun v =>
      { v with
        video_id := vi.video_id
        title := vi.title
        uploader := vi.uploader
        duration := vi.duration
        thumbnail_url := vi.thumbnail_url }) m.downloads }

/-- Embeds `MainViewModel._on_progress`. -/
def vm_on_progress (task_id : String) (p sp : Rat) (m : VMState) : VMState :=
  { m with
    downloads := dlUpdate task_id (fun v => { v with progress := p, speed := sp }) m.downloads }

/-- Embeds `MainViewModel._on_status_changed`. -/
def vm_on_status_changed (task_id status : String) (m : VMState) : VMState :=
  { m with
    downloads := dlUpdate task_id (fun v => { v with status := status }) m.downloads }

/-- Embeds `MainViewModel._on_download_finished`: mark the tracked record
completed with progress 100, then build a fresh record from the emitted
metadata dict, stamp the completion time and write it through to the
store.  The tracked record's filepath is not touched. -/
def vm_on_download_finished (task_id : String) (metadata : VideoDict) (now : String)
    (m : VMState) : VMState :=
  if (dlLookup task_id m.downloads).isSome then
    let downloads2 :=
      dlUpdate task_id (fun v => { v with status := "completed", progress := 100 }) m.downloads
    let full : VideoInfo := { from_dict metadata with downloaded_at := some now }
    { downloads := downloads2
      store := load_library (save_metadata full (.ok m.store) true).2 }
  else m

/-- Embeds `MainViewModel._on_download_error`. -/
def vm_on_download_error (task_id msg : String) (m : VMState) : VMState :=
  { m with
    downloads := dlUpdate task_id (fun v =>
      { v with status := "error", error_message := msg }) m.downloads }

/-- Embeds `MainViewModel.cancel_download`: any tracked task is optimistically
marked cancelled and `True` is returned, regardless of the manager-level
outcome. -/
def vm_cancel_download (task_id : String) (m : VMState) : Bool × VMState :=
  if (dlLookup task_id m.downloads).isSome then
    (true,
     { m with
       downloads := dlUpdate task_id (fun v => { v with status := "cancelled" }) m.downloads })
  else (false, m)

/-- Embeds `MainViewModel.remove_download`: cancel first when still active,
then delete the record from the task map (never from the store). -/
def vm_remove_download (task_id : String) (m : VMState) : Bool × VMState :=
  match dlLookup task_id m.downloads with
  | none => (false, m)
  | some v =>
    let m2 :=
      if v.status = "pending" ∨ v.status = "downloading" then (vm_cancel_download task_id m).2
      else m
    (true, { m2 with downloads := dlErase task_id m2.downloads })

/-- Caller actions and manager signals folded by the viewmodel.  `now` is
the clock reading taken by the completion handler. -/
inductive VMEvent where
  | add_download (freshId url quality : String)
  | cancel (task_id : String)
  | remove (task_id : String)
  | info_extracted (task_id : String) (vi : VideoInfo)
  | progress (task_id : String) (p sp : Rat)
  | status_changed (task_id status : String)
  | download_finished (task_id : String) (metadata : VideoDict) (now : String)
  | download_error (task_id msg : String)
deriving DecidableEq

/-- One viewmodel step. -/
def vmStep (m : VMState) : VMEvent → VMState
  | .add_download f u q => (vm_add_download f u q m).2.1
  | .cancel t => (vm_cancel_download t m).2
  | .remove t => (vm_remove_download t m).2
  | .info_extracted t vi => vm_on_info_extracted t vi m
  | .progress t p sp => vm_on_progress t p sp m
  | .status_changed t st => vm_on_status_changed t st m
  | .download_finished t meta now => vm_on_download_finished t meta now m
  | .download_error t msg => vm_on_download_error t msg m

/-- Run the viewmodel from its initial state. -/
def vmRun (evs : List VMEvent) : VMState := evs.foldl vmStep initVM

/-- Embeds `MainViewModel.get_active_count`. -/
def get_active_count (m : VMState) : Nat :=
  (m.downloads.filter (fun p => p.2.status = "pending" || p.2.status = "downloading")).length

/-- Embeds `MainViewModel.get_completed_count`. -/
def get_completed_count (m : VMState) : Nat :=
  (m.downloads.filter (fun p => p.2.status = "completed")).length

/-! ## Invariant definitions and concrete inputs used by the theorems -/

/-- Concrete record for the C7 witness. -/
def c7vid : VideoInfo :=
  { video_id := "dQw4w9WgXcQ"
    title := "Never Gonna Give You Up"
    uploader := "Rick Astley"
    upload_date := some "20091025"
    duration := 212
    filename := "Never Gonna Give You Up.mp4"
    filepath := "/home/user/Downloads/Never Gonna Give You Up.mp4"
    file_size := 10485760
    quality := "best"
    thumbnail_url := "https://i.ytimg.com/vi/dQw4w9WgXcQ/hq720.jpg"
    downloaded_at := some "2026-10-12T12:00:00"
    url := "https://www.youtube.com/watch?v=dQw4w9WgXcQ"
    status := "completed"
    progress := 100 }

/-- Stored dicts for the C8 witness. -/
def c8d1 : VideoDict :=
  { video_id := "aaaaaaaaaaa", title := "Relaxing Music Mix", uploader := some "Chill Channel" }

/-- Second stored dict for the C8 witness. -/
def c8d2 : VideoDict :=
  { video_id := "bbbbbbbbbbb", title := "Cooking Pasta", uploader := some "Chef" }

/-- Concrete store for the C8 witness. -/
def c8fs : FileState := .ok [("aaaaaaaaaaa", c8d1), ("bbbbbbbbbbb", c8d2)]

/-- Hook dict with an unusable total for the C6 witness. -/
def c6zero : HookData :=
  { status := "downloading", total_bytes := some 0, downloaded_bytes := some 5 }

/-- Hook dict with a known total for the C6 witness. -/
def c6known : HookData :=
  { status := "downloading", total_bytes := some 200, downloaded_bytes := some 50,
    speed := some 1024 }

/-- Finished hook dict for the C6 witness. -/
def c6fin : HookData := { status := "finished" }

/-- Invariant of the registry transition system: registered task ids are
unique and every registered task has a non-terminal recorded status
(workers deregister exactly on reaching a terminal state). -/
def dmInv (s : DMState) : Prop :=
  s.active.Nodup ∧
  ∀ tid ∈ s.active, ∃ st, taskLookup tid s.tasks = some st ∧ isTerminalStatus st = false

/-- Record written by the completed task of the C3 witness. -/
def c3rec : VideoDict := { video_id := "aaaaaaaaaaa", title := "A" }

/-- Transition list for the C3 witness: task `task-a` runs to completion,
task `task-b` stays active. -/
def c3evs : List DMTrans :=
  [.add "task-a", .start_transfer "task-a", .finish_completed "task-a" c3rec, .add "task-b"]

/-- Transfer result used by the C4 counterexample. -/
def c4transfer : TransferInfo := { preparedFilename := "video.mp4", filesize := some 1000 }

/-- Metadata returned by the extraction call in the C1 scenario. -/
def c1meta : ExtractedMeta :=
  { id := some "dQw4w9WgXcQ", title := some "Never Gonna Give You Up",
    uploader := some "Rick Astley", upload_date := some "20091025",
    duration := some 212, thumbnail := some "https://i.ytimg.com/vi/dQw4w9WgXcQ/hq720.jpg" }

/-- Transfer result of the C1 scenario (`prepare_filename` yields the full
templated output path). -/
def c1transfer : TransferInfo :=
  { preparedFilename := "/home/user/Downloads/Never Gonna Give You Up.mp4",
    filesize := some 10485760 }

/-- The normalized URL of the C1 scenario. -/
def c1url : String := "https://www.youtube.com/watch?v=dQw4w9WgXcQ"

/-- The record built by extraction in the C1 scenario (status `pending`,
empty filepath, hardcoded quality `best`). -/
def c1extracted : VideoInfo :=
  { video_id := "dQw4w9WgXcQ", title := "Never Gonna Give You Up", uploader := "Rick Astley",
    upload_date := some "20091025", duration := 212,
    filename := "Never Gonna Give You Up.mp4",
    thumbnail_url := "https://i.ytimg.com/vi/dQw4w9WgXcQ/hq720.jpg",
    url := "https://www.youtube.com/watch?v=dQw4w9WgXcQ" }

/-- The metadata dict emitted with `download_finished` in the C1 scenario. -/
def c1dict : VideoDict :=
  { video_id := "dQw4w9WgXcQ", title := "Never Gonna Give You Up",
    uploader := some "Rick Astley", upload_date := some "20091025", duration := some 212,
    filename := some "/home/user/Downloads/Never Gonna Give You Up.mp4",
    filepath := some "/home/user/Downloads/Never Gonna Give You Up.mp4",
    file_size := some 10485760, quality := some "best",
    thumbnail_url := some "https://i.ytimg.com/vi/dQw4w9WgXcQ/hq720.jpg",
    url := some "https://www.youtube.com/watch?v=dQw4w9WgXcQ" }

/-- The viewmodel events of the C1 scenario, in the order the worker emits
them for a successful 720p submission. -/
def c1events : List VMEvent :=
  [.add_download "t1" c1url "720p",
   .info_extracted "t1" c1extracted,
   .status_changed "t1" "downloading",
   .download_finished "t1" c1dict "2026-10-12T12:00:00",
   .status_changed "t1" "completed"]

/-- The session record after the C1 scenario: requested quality, progress
100, completed — but no filepath. -/
def c1session : VideoInfo :=
  { video_id := "dQw4w9WgXcQ", title := "Never Gonna Give You Up", uploader := "Rick Astley",
    duration := 212, quality := "720p",
    thumbnail_url := "https://i.ytimg.com/vi/dQw4w9WgXcQ/hq720.jpg",
    url := c1url, status := "completed", progress := 100 }

/-- The dict persisted to the Metadata Store after the C1 scenario: the
emitted dict stamped with the completion time. -/
def c1stored : VideoDict := { c1dict with downloaded_at := some "2026-10-12T12:00:00" }

/-- URL submitted in the C2 counterexample run. -/
def c2url : String := "https://youtu.be/dQw4w9WgXcQ"

/-- Completion dict (with a real filepath) arriving in the C2
counterexample run. -/
def c2dict : VideoDict :=
  { video_id := "dQw4w9WgXcQ", title := "T", filepath := some "/d/T.mp4" }

/-- Events of the C2 counterexample run: one submission, then its
completion. -/
def c2events : List VMEvent :=
  [.add_download "t1" c2url "best", .download_finished "t1" c2dict "2026-10-12T12:00:00"]

/-- The session record reached in the C2 counterexample run. -/
def c2session : VideoInfo :=
  { video_id := "dQw4w9WgXcQ", title := "Wird geladen...", uploader := "", url := c2url,
    status := "completed", progress := 100 }

/-! ## Lemmas about the URL validator -/

theorem takeId_spec {s v : List Char} (h : takeId s = some v) :
    v.length = 11 ∧ v.all isIdChar = true := by
  unfold takeId at h
  split_ifs at h with hc
  cases h
  simp only [Bool.and_eq_true, decide_eq_true_eq] at hc
  exact ⟨hc.1, hc.2⟩

theorem takeId_self (v : List Char) (h1 : v.length = 11) (h2 : v.all isIdChar = true) :
    takeId v = some v := by
  unfold takeId
  rw [List.take_of_length_le (by omega)]
  simp [h1, h2]

theorem searchPat_spec (core : List Char) {s v : List Char} (h : searchPat core s = some v) :
    v.length = 11 ∧ v.all isIdChar = true := by
  induction s with
  | nil => simp [searchPat] at h
  | cons c rest ih =>
    simp only [searchPat] at h
    split at h
    · split at h
      next heq =>
        cases h
        exact takeId_spec heq
      next => exact ih h
    · exact ih h

theorem lastVEq_spec {s v : List Char} (h : lastVEq s = some v) :
    v.length = 11 ∧ v.all isIdChar = true := by
  induction s with
  | nil => simp [lastVEq] at h
  | cons c rest ih =>
    simp only [lastVEq] at h
    split at h
    · cases h
    · split at h
      next heq => cases h; exact ih heq
      next =>
        split at h
        · exact takeId_spec h
        · cases h

theorem searchCore5_spec (core : List Char) {s v : List Char}
    (h : searchCore5 core s = some v) : v.length = 11 ∧ v.all isIdChar = true := by
  induction s with
  | nil => simp [searchCore5] at h
  | cons c rest ih =>
    simp only [searchCore5] at h
    split at h
    · split at h
      next heq =>
        cases h
        exact lastVEq_spec heq
      next => exact ih h
    · exact ih h

theorem extract_video_id_spec {url v : List Char} (h : extract_video_id url = some v) :
    v.length = 11 ∧ v.all isIdChar = true := by
  unfold extract_video_id at h
  split at h
  next heq => cases h; exact searchPat_spec core1 heq
  next =>
    split at h
    next heq => cases h; exact searchPat_spec core2 heq
    next =>
      split at h
      next heq => cases h; exact searchPat_spec core3 heq
      next =>
        split at h
        next heq => cases h; exact searchPat_spec core4 heq
        next => exact searchCore5_spec core5 h

theorem searchPat_cons_no {core : List Char} {c : Char} {rest : List Char}
    (h : core.isPrefixOf (c :: rest) = false) :
    searchPat core (c :: rest) = searchPat core rest := by
  simp [searchPat, h]

theorem searchPat_cons_yes {core : List Char} {c : Char} {rest vid : List Char}
    (h : core.isPrefixOf (c :: rest) = true)
    (hv : takeId ((c :: rest).drop core.length) = some vid) :
    searchPat core (c :: rest) = some vid := by
  simp [searchPat, h, hv]

theorem searchPat_canon (v : List Char) (ht : takeId v = some v) :
    searchPat core1 (canonHead ++ v) = some v := by
  show searchPat core1 ('h' :: ("ttps://www.".data ++ (core1 ++ v))) = some v
  rw [searchPat_cons_no (by rfl)]
  rw [show "ttps://www.".data ++ (core1 ++ v) = 't' :: ("tps://www.".data ++ (core1 ++ v)) from
    rfl, searchPat_cons_no (by rfl)]
  rw [show "tps://www.".data ++ (core1 ++ v) = 't' :: ("ps://www.".data ++ (core1 ++ v)) from
    rfl, searchPat_cons_no (by rfl)]
  rw [show "ps://www.".data ++ (core1 ++ v) = 'p' :: ("s://www.".data ++ (core1 ++ v)) from
    rfl, searchPat_cons_no (by rfl)]
  rw [show "s://www.".data ++ (core1 ++ v) = 's' :: ("://www.".data ++ (core1 ++ v)) from
    rfl, searchPat_cons_no (by rfl)]
  rw [show "://www.".data ++ (core1 ++ v) = ':' :: ("//www.".data ++ (core1 ++ v)) from
    rfl, searchPat_cons_no (by rfl)]
  rw [show "//www.".data ++ (core1 ++ v) = '/' :: ("/www.".data ++ (core1 ++ v)) from
    rfl, searchPat_cons_no (by rfl)]
  rw [show "/www.".data ++ (core1 ++ v) = '/' :: ("www.".data ++ (core1 ++ v)) from
    rfl, searchPat_cons_no (by rfl)]
  rw [show "www.".data ++ (core1 ++ v) = 'w' :: ("ww.".data ++ (core1 ++ v)) from
    rfl, searchPat_cons_no (by rfl)]
  rw [show "ww.".data ++ (core1 ++ v) = 'w' :: ("w.".data ++ (core1 ++ v)) from
    rfl, searchPat_cons_no (by rfl)]
  rw [show "w.".data ++ (core1 ++ v) = 'w' :: (".".data ++ (core1 ++ v)) from
    rfl, searchPat_cons_no (by rfl)]
  rw [show ".".data ++ (core1 ++ v) = '.' :: (core1 ++ v) from
    rfl, searchPat_cons_no (by rfl)]
  rw [show core1 ++ v = 'y' :: ("outube.com/watch?v=".data ++ v) from rfl]
  rw [searchPat_cons_yes
    (by rw [List.isPrefixOf_iff_prefix]; exact List.prefix_append core1 v) (by exact ht)]

theorem extract_video_id_canon (v : List Char) (h1 : v.length = 11)
    (h2 : v.all isIdChar = true) : extract_video_id (canonHead ++ v) = some v := by
  have hs := searchPat_canon v (takeId_self v h1 h2)
  unfold extract_video_id
  rw [hs]

/-- Claim C10: for every URL accepted by the validator (equivalently, every
URL from which an identifier is extracted), `normalize_url` returns the
non-empty canonical URL, which the validator accepts, from which
`extract_video_id` yields the same eleven-character identifier as from the
original URL, and which normalization maps to itself (normalization is a
retraction). -/
theorem C10_normalize_retraction (url vid : List Char)
    (h : extract_video_id url = some vid) :
    is_valid_youtube_url url = true ∧
    vid.length = 11 ∧
    normalize_url url = some (canonHead ++ vid) ∧
    canonHead ++ vid ≠ [] ∧
    is_valid_youtube_url (canonHead ++ vid) = true ∧
    extract_video_id (canonHead ++ vid) = some vid ∧
    normalize_url (canonHead ++ vid) = some (canonHead ++ vid) := by
  obtain ⟨h1, h2⟩ := extract_video_id_spec h
  have hc := extract_video_id_canon vid h1 h2
  refine ⟨?_, h1, ?_, ?_, ?_, hc, ?_⟩
  · simp [is_valid_youtube_url, h]
  · simp [normalize_url, h]
  · rw [show canonHead ++ vid = 'h' :: ("ttps://www.youtube.com/watch?v=".data ++ vid) from rfl]
    simp
  · simp [is_valid_youtube_url, hc]
  · simp [normalize_url, hc]

/-- Witness for C10 at the concrete short-form URL of the spec scenario. -/
theorem C10_normalize_retraction_witness :
    is_valid_youtube_url "https://youtu.be/dQw4w9WgXcQ".data = true ∧
    "dQw4w9WgXcQ".data.length = 11 ∧
    normalize_url "https://youtu.be/dQw4w9WgXcQ".data
      = some (canonHead ++ "dQw4w9WgXcQ".data) ∧
    canonHead ++ "dQw4w9WgXcQ".data ≠ [] ∧
    is_valid_youtube_url (canonHead ++ "dQw4w9WgXcQ".data) = true ∧
    extract_video_id (canonHead ++ "dQw4w9WgXcQ".data) = some "dQw4w9WgXcQ".data ∧
    normalize_url (canonHead ++ "dQw4w9WgXcQ".data)
      = some (canonHead ++ "dQw4w9WgXcQ".data) :=
  C10_normalize_retraction "https://youtu.be/dQw4w9WgXcQ".data "dQw4w9WgXcQ".data (by decide)

/-- Claim C5: a syntactically invalid URL is rejected: the manager returns no
task id (so no worker thread is spawned and no per-task events can be
emitted), and the viewmodel leaves its state unchanged and emits exactly
the explicit session-level error signal. -/
theorem C5_invalid_url_rejected (freshId url quality : String) (m : VMState)
    (h : is_valid_youtube_url url.data = false) :
    add_download freshId url quality = none ∧
    vm_add_download freshId url quality m
      = (none, m, [OutEvent.download_error "" "Ungültige YouTube-URL"]) := by
  constructor
  · simp [add_download, h]
  · simp [vm_add_download, h]

/-- Witness for C5 at the concrete invalid input of the spec. -/
theorem C5_invalid_url_rejected_witness :
    add_download "task-1" "not a url" "best" = none ∧
    vm_add_download "task-1" "not a url" "best" initVM
      = (none, initVM, [OutEvent.download_error "" "Ungültige YouTube-URL"]) :=
  C5_invalid_url_rejected "task-1" "not a url" "best" initVM (by decide)

/-- Claim C9: the Metadata Store never raises past its boundary: a missing or
corrupt (unparseable) library file loads as the empty library, and a
failing write makes `save_metadata` return `False` instead of propagating
an exception. -/
theorem C9_store_boundary :
    load_library FileState.missing = [] ∧
    load_library FileState.corrupt = [] ∧
    get_all_videos FileState.missing = [] ∧
    get_all_videos FileState.corrupt = [] ∧
    ∀ (v : VideoInfo) (fs : FileState), (save_metadata v fs false).1 = false := by
  refine ⟨rfl, rfl, rfl, rfl, fun v fs => ?_⟩
  simp [save_metadata]

/-! ## Round trip and search over the store -/

theorem libInsert_self_mem (k : String) (d : VideoDict) (lib : Library) :
    (k, d) ∈ libInsert k d lib := by
  induction lib with
  | nil => simp [libInsert]
  | cons p rest ih =>
    obtain ⟨k2, d2⟩ := p
    simp only [libInsert]
    split_ifs with hk
    · exact List.mem_cons_self _ _
    · exact List.mem_cons_of_mem _ ih

theorem from_dict_to_dict_durable (v : VideoInfo) (h : v.downloaded_at ≠ some "") :
    durableEq (from_dict (to_dict v)) v := by
  unfold durableEq
  cases hd : v.downloaded_at with
  | none => simp [from_dict, to_dict, hd]
  | some s =>
    have hs : s ≠ "" := fun he => h (he ▸ hd)
    simp [from_dict, to_dict, hd, hs]

/-- Claim C7: saving a record to the Metadata Store and loading the library
back yields a record equal to the original on all twelve durable fields.
The hypothesis reflects that a Python `datetime` always renders to a
non-empty ISO string. -/
theorem C7_roundtrip (v : VideoInfo) (lib : Library) (h : v.downloaded_at ≠ some "") :
    (save_metadata v (.ok lib) true).1 = true ∧
    from_dict (to_dict v) ∈ get_all_videos (save_metadata v (.ok lib) true).2 ∧
    durableEq (from_dict (to_dict v)) v := by
  refine ⟨rfl, ?_, from_dict_to_dict_durable v h⟩
  show from_dict (to_dict v) ∈
    (load_library (FileState.ok (libInsert v.video_id (to_dict v) lib))).map
      (fun p => from_dict p.2)
  exact List.mem_map.mpr ⟨(v.video_id, to_dict v), libInsert_self_mem _ _ _, rfl⟩

/-- Witness for C7 at a concrete completed record and the empty library. -/
theorem C7_roundtrip_witness :
    (save_metadata c7vid (.ok []) true).1 = true ∧
    from_dict (to_dict c7vid) ∈ get_all_videos (save_metadata c7vid (.ok []) true).2 ∧
    durableEq (from_dict (to_dict c7vid)) c7vid :=
  C7_roundtrip c7vid [] (by decide)

theorem get_all_videos_eq (fs : FileState) :
    get_all_videos fs = ((load_library fs).map Prod.snd).map from_dict := by
  rw [get_all_videos, List.map_map]
  rfl

/-- Claim C8: search returns exactly the records whose title or uploader
contains the query case-insensitively, and the result is a sublist (hence
a subset) of the full library load. -/
theorem C8_search_spec (q : String) (fs : FileState) :
    (∀ r : VideoInfo, r ∈ search_videos q fs ↔
      (r ∈ get_all_videos fs ∧ (containsCI q r.title || containsCI q r.uploader) = true)) ∧
    List.Sublist (search_videos q fs) (get_all_videos fs) := by
  have hmatch : ∀ d : VideoDict, dictMatches q d
      = (containsCI q (from_dict d).title || containsCI q (from_dict d).uploader) :=
    fun d => rfl
  constructor
  · intro r
    rw [get_all_videos_eq]
    unfold search_videos
    constructor
    · intro hr
      obtain ⟨d, hd, rfl⟩ := List.mem_map.mp hr
      obtain ⟨hdl, hdm⟩ := List.mem_filter.mp hd
      exact ⟨List.mem_map.mpr ⟨d, hdl, rfl⟩, (hmatch d) ▸ hdm⟩
    · rintro ⟨hr, hm⟩
      obtain ⟨d, hd, rfl⟩ := List.mem_map.mp hr
      exact List.mem_map.mpr ⟨d, List.mem_filter.mpr ⟨hd, (hmatch d) ▸ hm⟩, rfl⟩
  · rw [get_all_videos_eq]
    exact (List.filter_sublist _).map from_dict

/-- Witness for C8 at the spec's query `music` over a two-record store. -/
theorem C8_search_spec_witness :
    (from_dict c8d1 ∈ search_videos "music" c8fs ↔
      (from_dict c8d1 ∈ get_all_videos c8fs ∧
        (containsCI "music" (from_dict c8d1).title ||
          containsCI "music" (from_dict c8d1).uploader) = true)) ∧
    List.Sublist (search_videos "music" c8fs) (get_all_videos c8fs) :=
  ⟨(C8_search_spec "music" c8fs).1 (from_dict c8d1), (C8_search_spec "music" c8fs).2⟩

/-- Claim C6: the progress hook emits a progress event, computed as
downloaded/total*100, only when the effective total is strictly positive
(a zero or unknown total suppresses emission entirely, so the division is
never performed), and a `finished` callback emits exactly the single final
progress event at 100 percent. -/
theorem C6_progress_hook_safety :
    (∀ d : HookData, d.status = "downloading" → effectiveTotal d ≤ 0 →
      progress_hook d = none) ∧
    (∀ d : HookData, d.status = "downloading" → 0 < effectiveTotal d →
      progress_hook d
        = some ((((d.downloaded_bytes.getD 0 : Int) : Rat) / ((effectiveTotal d : Int) : Rat))
              * 100,
            pyOrRat d.speed 0)) ∧
    (∀ d : HookData, d.status = "finished" → progress_hook d = some (100, 0)) := by
  refine ⟨fun d hs ht => ?_, fun d hs ht => ?_, fun d hs => ?_⟩
  · simp only [progress_hook, if_pos hs]
    rw [if_neg (by omega)]
  · simp only [progress_hook, if_pos hs]
    rw [if_pos ht]
  · have hne : ¬ d.status = "downloading" := by rw [hs]; decide
    simp only [progress_hook, if_neg hne, if_pos hs]

/-- Witness for C6 at three concrete hook invocations. -/
theorem C6_progress_hook_safety_witness :
    progress_hook c6zero = none ∧
    progress_hook c6known
      = some ((((c6known.downloaded_bytes.getD 0 : Int) : Rat)
            / ((effectiveTotal c6known : Int) : Rat)) * 100,
          pyOrRat c6known.speed 0) ∧
    progress_hook c6fin = some (100, 0) :=
  ⟨C6_progress_hook_safety.1 c6zero rfl (by decide),
   C6_progress_hook_safety.2.1 c6known rfl (by decide),
   C6_progress_hook_safety.2.2 c6fin rfl⟩

/-! ## Cancellation against the registry -/

theorem taskLookup_cons_ne {k k2 : String} (h : k2 ≠ k) (st : String)
    (l : List (String × String)) : taskLookup k ((k2, st) :: l) = taskLookup k l := by
  simp [taskLookup, h]

theorem taskLookup_cons_self (k : String) (st : String) (l : List (String × String)) :
    taskLookup k ((k, st) :: l) = some st := by
  simp [taskLookup]

theorem taskLookup_setTask_ne {k k2 : String} (h : k ≠ k2) (st : String)
    (l : List (String × String)) : taskLookup k (setTask k2 st l) = taskLookup k l := by
  induction l with
  | nil => rfl
  | cons p rest ih =>
    obtain ⟨k3, s3⟩ := p
    by_cases h3 : k3 = k2
    · subst h3
      rw [setTask, if_pos rfl, taskLookup_cons_ne (Ne.symm h), taskLookup_cons_ne]
      intro he
      exact h he.symm
    · rw [setTask, if_neg h3]
      by_cases h4 : k3 = k
      · subst h4
        rw [taskLookup_cons_self, taskLookup_cons_self]
      · rw [taskLookup_cons_ne h4, taskLookup_cons_ne h4, ih]

theorem taskLookup_setTask_self {k : String} {l : List (String × String)}
    (hsome : (taskLookup k l).isSome = true) (st : String) :
    taskLookup k (setTask k st l) = some st := by
  induction l with
  | nil => simp [taskLookup] at hsome
  | cons p rest ih =>
    obtain ⟨k3, s3⟩ := p
    by_cases h3 : k3 = k
    · subst h3
      rw [setTask, if_pos rfl, taskLookup_cons_self]
    · rw [taskLookup_cons_ne h3] at hsome
      rw [setTask, if_neg h3, taskLookup_cons_ne h3, ih hsome]

theorem dmInv_finish {tasks : List (String × String)} {active : List String}
    (hnd : active.Nodup)
    (hact : ∀ tid ∈ active, ∃ st, taskLookup tid tasks = some st ∧ isTerminalStatus st = false)
    (tid : String) (newStatus : String) :
    (active.erase tid).Nodup ∧
    ∀ t ∈ active.erase tid, ∃ st, taskLookup t (setTask tid newStatus tasks) = some st ∧
      isTerminalStatus st = false := by
  refine ⟨hnd.erase tid, fun t ht => ?_⟩
  obtain ⟨hne, ht2⟩ := (List.Nodup.mem_erase_iff hnd).mp ht
  obtain ⟨st, hst, hterm⟩ := hact t ht2
  exact ⟨st, (taskLookup_setTask_ne hne _ _).trans hst, hterm⟩

theorem dmInv_step {s : DMState} (h : dmInv s) (e : DMTrans) : dmInv (dmStep s e) := by
  obtain ⟨hnd, hact⟩ := h
  cases e with
  | add tid =>
    simp only [dmStep]
    split_ifs with hk
    · exact ⟨hnd, hact⟩
    · have htid : tid ∉ s.active := by
        intro hmem
        obtain ⟨st, hst, _⟩ := hact tid hmem
        simp [hst] at hk
      refine ⟨List.Nodup.cons htid hnd, fun t ht => ?_⟩
      rcases List.mem_cons.mp ht with rfl | ht2
      · exact ⟨"pending", taskLookup_cons_self _ _ _, rfl⟩
      · obtain ⟨st, hst, hterm⟩ := hact t ht2
        have hne : tid ≠ t := fun he => htid (he ▸ ht2)
        exact ⟨st, (taskLookup_cons_ne hne _ _).trans hst, hterm⟩
  | start_transfer tid =>
    simp only [dmStep]
    split_ifs with hk
    · refine ⟨hnd, fun t ht => ?_⟩
      by_cases he : t = tid
      · subst he
        obtain ⟨st, hst, _⟩ := hact t hk
        exact ⟨"downloading", taskLookup_setTask_self (by simp [hst]) _, rfl⟩
      · obtain ⟨st, hst, hterm⟩ := hact t ht
        exact ⟨st, (taskLookup_setTask_ne he _ _).trans hst, hterm⟩
    · exact ⟨hnd, hact⟩
  | finish_completed tid rec =>
    simp only [dmStep]
    split_ifs with hk
    · exact dmInv_finish hnd hact tid "completed"
    · exact ⟨hnd, hact⟩
  | finish_error tid =>
    simp only [dmStep]
    split_ifs with hk
    · exact dmInv_finish hnd hact tid "error"
    · exact ⟨hnd, hact⟩
  | finish_cancelled tid =>
    simp only [dmStep]
    split_ifs with hk
    · exact dmInv_finish hnd hact tid "cancelled"
    · exact ⟨hnd, hact⟩

theorem dmInv_run (evs : List DMTrans) : dmInv (dmRun evs) := by
  suffices h : ∀ s, dmInv s → dmInv (evs.foldl dmStep s) from
    h initDM ⟨List.nodup_nil, by simp [initDM]⟩
  induction evs with
  | nil => exact fun s hs => hs
  | cons e rest ih => exact fun s hs => ih _ (dmInv_step hs e)

/-- Claim C3: cancelling an unknown task or one whose lifecycle already
reached a terminal state (in particular `completed`) returns `False` and
leaves the whole manager state, including the persisted store, unchanged;
cancelling a currently active (registered) task returns `True`. -/
theorem C3_cancel_spec (evs : List DMTrans) (tid : String) :
    ((taskLookup tid (dmRun evs).tasks = none ∨
        (∃ st, taskLookup tid (dmRun evs).tasks = some st ∧ isTerminalStatus st = true)) →
      cancel_download tid (dmRun evs) = (false, dmRun evs)) ∧
    (tid ∈ (dmRun evs).active → (cancel_download tid (dmRun evs)).1 = true) := by
  obtain ⟨-, hact⟩ := dmInv_run evs
  constructor
  · intro hterm
    have hnot : tid ∉ (dmRun evs).active := by
      intro hmem
      obtain ⟨st, hst, hfalse⟩ := hact tid hmem
      rcases hterm with hnone | ⟨st2, hst2, hterm2⟩
      · rw [hst] at hnone
        cases hnone
      · rw [hst] at hst2
        cases hst2
        rw [hfalse] at hterm2
        cases hterm2
    simp [cancel_download, hnot]
  · intro hmem
    simp [cancel_download, hmem]

/-- Witness for C3: cancelling the completed `task-a` and the unknown
`task-x` returns `False` with the state unchanged; cancelling the active
`task-b` returns `True`. -/
theorem C3_cancel_spec_witness :
    cancel_download "task-a" (dmRun c3evs) = (false, dmRun c3evs) ∧
    cancel_download "task-x" (dmRun c3evs) = (false, dmRun c3evs) ∧
    (cancel_download "task-b" (dmRun c3evs)).1 = true :=
  ⟨(C3_cancel_spec c3evs "task-a").1 (Or.inr ⟨"completed", by decide⟩),
   (C3_cancel_spec c3evs "task-x").1 (Or.inl (by decide)),
   (C3_cancel_spec c3evs "task-b").2 (by decide)⟩

/-- Claim C4 (amended): when the metadata extraction raises, the worker
emits exactly one `download_error` event carrying a human-readable message
and returns at once, never invoking the download-mode call, so no
progress, completed, or downloading status events can follow.  (When
extraction instead returns no metadata without raising, the worker
proceeds to the transfer; see the counterexample.) -/
theorem C4_extraction_raised (task_id url quality outDir msg : String)
    (tr : TransferOutcome) :
    download_worker task_id url quality outDir (.raised msg) tr
      = ([WEvent.download_error task_id ("Fehler beim Laden der Metadaten: " ++ msg)], false) :=
  rfl

/-- Claim C4 counterexample: extraction that fails by returning no metadata
(the `if not info: return None` path of `_extract_info`) does not stop the
worker: it emits the `downloading` status transition and invokes the
download-mode call (second component `true`), failing only afterwards —
contradicting "terminates without ever invoking the download/transfer
step" and "no downloading status events follow an extraction failure". -/
theorem C4_counterexample :
    download_worker "t1" "https://www.youtube.com/watch?v=dQw4w9WgXcQ" "720p"
        "/home/user/Downloads" ExtractOutcome.noInfo (TransferOutcome.ok c4transfer)
      = ([WEvent.status_changed "t1" "downloading",
          WEvent.download_error "t1" "Download fehlgeschlagen"], true) :=
  rfl

/-! ## The completed 720p scenario -/

/-- Claim C1, evaluated at the failing input: a submission with requested
quality `720p` that runs to successful completion produces a worker trace
whose single completion dict records quality `best` (hardcoded in
`_extract_info`), not the requested `720p`; the record written to the
Metadata Store likewise says `best`.  The other two parts of the claim
hold, but on different records: the emitted/persisted record has the
non-empty filepath, while progress 100 appears only on the in-memory
session record (which keeps quality `720p` and an empty filepath). -/
theorem C1_code_evaluation :
    (download_worker "t1" c1url "720p" "/home/user/Downloads" (.ok c1meta) (.ok c1transfer)).1
      = [WEvent.info_extracted "t1" c1extracted,
         WEvent.status_changed "t1" "downloading",
         WEvent.download_finished "t1" c1dict,
         WEvent.status_changed "t1" "completed"] ∧
    c1dict.quality = some "best" ∧
    some "best" ≠ some "720p" ∧
    c1dict.filepath = some "/home/user/Downloads/Never Gonna Give You Up.mp4" ∧
    (from_dict c1dict).filepath ≠ "" ∧
    libLookup "dQw4w9WgXcQ" (vmRun c1events).store = some c1stored ∧
    c1stored.quality = some "best" ∧
    dlLookup "t1" (vmRun c1events).downloads = some c1session ∧
    c1session.quality = "720p" ∧
    c1session.progress = 100 ∧
    c1session.status = "completed" ∧
    c1session.filepath = "" := by
  refine ⟨?_, rfl, by decide, rfl, by decide, ?_, rfl, ?_, rfl, rfl, rfl, rfl⟩
  · rfl
  · rfl
  · rfl

/-! ## Filepath/status relationship (C2) -/

theorem dlUpdate_filepath {f : VideoInfo → VideoInfo}
    (hf : ∀ v, (f v).filepath = v.filepath) (k : String) (l : List (String × VideoInfo)) :
    (∀ p ∈ l, p.2.filepath = "") → ∀ p ∈ dlUpdate k f l, p.2.filepath = "" := by
  induction l with
  | nil => intro _ p hp; simp [dlUpdate] at hp
  | cons q rest ih =>
    obtain ⟨k2, v⟩ := q
    intro hl p hp
    simp only [dlUpdate] at hp
    split_ifs at hp with hk
    · rcases List.mem_cons.mp hp with rfl | hp2
      · show (f v).filepath = ""
        rw [hf v]
        exact hl (k2, v) (List.mem_cons_self _ _)
      · exact hl p (List.mem_cons_of_mem _ hp2)
    · rcases List.mem_cons.mp hp with rfl | hp2
      · exact hl _ (List.mem_cons_self _ _)
      · exact ih (fun q2 hq2 => hl q2 (List.mem_cons_of_mem _ hq2)) p hp2

theorem mem_dlErase {k : String} {l : List (String × VideoInfo)} {p : String × VideoInfo}
    (hp : p ∈ dlErase k l) : p ∈ l := by
  induction l with
  | nil => simp [dlErase] at hp
  | cons q rest ih =>
    obtain ⟨k2, v⟩ := q
    simp only [dlErase] at hp
    split_ifs at hp with hk
    · exact List.mem_cons_of_mem _ hp
    · rcases List.mem_cons.mp hp with rfl | hp2
      · exact List.mem_cons_self _ _
      · exact List.mem_cons_of_mem _ (ih hp2)

theorem dlLookup_mem {k : String} {l : List (String × VideoInfo)} {v : VideoInfo}
    (h : dlLookup k l = some v) : (k, v) ∈ l := by
  induction l with
  | nil => simp [dlLookup] at h
  | cons q rest ih =>
    obtain ⟨k2, v2⟩ := q
    simp only [dlLookup] at h
    split_ifs at h with hk
    · injection h with h2
      subst h2
      subst hk
      exact List.mem_cons_self _ _
    · exact List.mem_cons_of_mem _ (ih h)

theorem vm_cancel_filepath {m : VMState} (h : ∀ p ∈ m.downloads, p.2.filepath = "")
    (t : String) : ∀ p ∈ (vm_cancel_download t m).2.downloads, p.2.filepath = "" := by
  simp only [vm_cancel_download]
  split_ifs with hv
  · refine dlUpdate_filepath ?_ t m.downloads h
    intro v
    rfl
  · exact h

theorem vmStep_filepath {m : VMState} (h : ∀ p ∈ m.downloads, p.2.filepath = "")
    (e : VMEvent) : ∀ p ∈ (vmStep m e).downloads, p.2.filepath = "" := by
  cases e with
  | add_download f u q =>
    simp only [vmStep, vm_add_download]
    split_ifs with hv
    · intro p hp
      rcases List.mem_append.mp hp with hp1 | hp2
      · exact h p hp1
      · rw [List.mem_singleton.mp hp2]
    · exact h
  | cancel t => exact vm_cancel_filepath h t
  | remove t =>
    simp only [vmStep, vm_remove_download]
    cases hl : dlLookup t m.downloads with
    | none => exact h
    | some v =>
      intro p hp
      have hm2 : ∀ p2 ∈ (if v.status = "pending" ∨ v.status = "downloading"
          then (vm_cancel_download t m).2 else m).downloads, p2.2.filepath = "" := by
        split_ifs with hcond
        · exact vm_cancel_filepath h t
        · exact h
      exact hm2 p (mem_dlErase hp)
  | info_extracted t vi =>
    refine dlUpdate_filepath ?_ t m.downloads h
    intro v
    rfl
  | progress t p sp =>
    refine dlUpdate_filepath ?_ t m.downloads h
    intro v
    rfl
  | status_changed t st =>
    refine dlUpdate_filepath ?_ t m.downloads h
    intro v
    rfl
  | download_finished t meta now =>
    simp only [vmStep, vm_on_download_finished]
    split_ifs with hv
    · refine dlUpdate_filepath ?_ t m.downloads h
      intro v
      rfl
    · exact h
  | download_error t msg =>
    refine dlUpdate_filepath ?_ t m.downloads h
    intro v
    rfl

theorem vmRun_filepath (evs : List VMEvent) :
    ∀ p ∈ (vmRun evs).downloads, p.2.filepath = "" := by
  suffices h : ∀ m, (∀ p ∈ m.downloads, p.2.filepath = "") →
      ∀ p ∈ (evs.foldl vmStep m).downloads, p.2.filepath = "" from
    h initVM (by simp [initVM])
  induction evs with
  | nil => exact fun m hm => hm
  | cons e rest ih => exact fun m hm => ih _ (vmStep_filepath hm e)

theorem extract_info_record {url : String} {ext : ExtractOutcome} {vi : VideoInfo}
    (h : extract_info url ext = .ok (some vi)) :
    vi.filepath = "" ∧ vi.status = "pending" := by
  cases ext with
  | raised m => simp [extract_info] at h
  | noInfo => simp [extract_info] at h
  | ok meta =>
    simp only [extract_info, Except.ok.injEq, Option.some.injEq] at h
    subst h
    exact ⟨rfl, rfl⟩

theorem pathJoin_ne_empty {dir : String} (h : dir ≠ "") (name : String) :
    pathJoin dir name ≠ "" := by
  unfold pathJoin
  split_ifs with h1 h2
  · exact h
  · intro he
    rw [he] at h2
    exact absurd h2 (by decide)
  · intro he
    have hlen := congrArg String.length he
    rw [String.length_append, String.length_append] at hlen
    rw [show ("/" : String).length = 1 from rfl, show ("" : String).length = 0 from rfl] at hlen
    omega

/-- Claim C2 (amended): a record's filepath is non-empty only if its status
is `completed`.  For the worker-side record the full equivalence holds
(given a non-empty output directory); for the Session State Model records
the filepath stays empty through the whole lifecycle (the completion fold
never copies it), so the `completed → non-empty` direction of the original
claim fails there. -/
theorem C2_filepath_invariant :
    (∀ (task_id url quality outDir : String), outDir ≠ "" →
      ∀ (ext : ExtractOutcome) (tr : TransferOutcome),
        ∀ vi ∈ workerRecords task_id url quality outDir ext tr,
          (vi.filepath ≠ "" ↔ vi.status = "completed")) ∧
    (∀ (evs : List VMEvent) (task_id : String) (vi : VideoInfo),
      dlLookup task_id (vmRun evs).downloads = some vi → vi.filepath = "") := by
  constructor
  · intro task_id url quality outDir hdir ext tr vi hvi
    simp only [workerRecords] at hvi
    cases hx : extract_info url ext with
    | error e =>
      rw [hx] at hvi
      simp at hvi
    | ok viOpt =>
      rw [hx] at hvi
      cases viOpt with
      | none => simp at hvi
      | some vi0 =>
        obtain ⟨hfp, hst⟩ := extract_info_record hx
        have hbase : vi0.filepath ≠ "" ↔ vi0.status = "completed" := by
          rw [hfp, hst]
          constructor
          · intro hne
            exact absurd rfl hne
          · intro hc
            exact absurd hc (by decide)
        have hfinal : ∀ info : TransferInfo,
            ((finalVideoInfo vi0 outDir info).filepath ≠ ""
              ↔ (finalVideoInfo vi0 outDir info).status = "completed") :=
          fun info => ⟨fun _ => rfl, fun _ => pathJoin_ne_empty hdir _⟩
        cases tr with
        | ok info =>
          rcases List.mem_cons.mp hvi with rfl | hvi2
          · exact hbase
          · rw [List.mem_singleton.mp hvi2]
            exact hfinal info
        | noInfo =>
          rw [List.mem_singleton.mp hvi]
          exact hbase
        | cancelledSignal =>
          rw [List.mem_singleton.mp hvi]
          exact hbase
        | dlError msg =>
          rw [List.mem_singleton.mp hvi]
          exact hbase
        | raised msg =>
          rw [List.mem_singleton.mp hvi]
          exact hbase
  · intro evs task_id vi hvi
    exact vmRun_filepath evs (task_id, vi) (dlLookup_mem hvi)

/-- Claim C2 counterexample: after folding a completion event, the Session
State Model's maintained record has status `completed` with an empty file
path — the claimed equivalence "file path non-empty iff status completed"
is false for this reachable record. -/
theorem C2_counterexample :
    dlLookup "t1" (vmRun c2events).downloads = some c2session ∧
    c2session.status = "completed" ∧
    c2session.filepath = "" ∧
    ¬ (c2session.filepath ≠ "" ↔ c2session.status = "completed") := by
  refine ⟨rfl, rfl, rfl, ?_⟩
  intro hiff
  exact hiff.mpr rfl rfl

/-- Witness for the amended C2 theorem: the finalized worker record of the
C1 run satisfies the equivalence, and the completed session record of the
C2 counterexample run has an empty filepath. -/
theorem C2_filepath_invariant_witness :
    ((finalVideoInfo c1extracted "/home/user/Downloads" c1transfer).filepath ≠ ""
      ↔ (finalVideoInfo c1extracted "/home/user/Downloads" c1transfer).status = "completed") ∧
    c2session.filepath = "" :=
  ⟨C2_filepath_invariant.1 "t1" c1url "720p" "/home/user/Downloads" (by decide)
      (.ok c1meta) (.ok c1transfer)
      (finalVideoInfo c1extracted "/home/user/Downloads" c1transfer) (by decide),
   C2_filepath_invariant.2 c2events "t1" c2session rfl⟩
